import Mathlib

/-!
Verification of the ovn-kubernetes raft db manager core and the two
collaborator components present in the tree (the IP rule manager and the
IPsec tunnel monitor).

The raft db manager operations (`ensureLocalRaftServerID`,
`ensureClusterRaftMembership`, `ensureElectionTimeout`, `resetRaftDB`) live in
`pkg/ovndbmanager/ovndbmanager.go`, which is not part of the source tree here;
only its unit tests (`ovndbmanager_test.go`) are. Those operations are
therefore modelled from the specification (sections 4.2-4.5, 8), with the
test file fixing the admin-channel command vocabulary
(`cluster/sid`, `cluster/status`, `cluster/kick`,
`cluster/change-election-timer`, `exit`) and the error conditions.

The admin channel is embedded as an environment of call results; each
operation returns its outcome together with the ordered list of admin-channel
commands it issued, so that "exactly one kick command is issued" style
properties are statements about that trace.
-/

namespace OvnDbManager

/-- One admin-channel command, as issued through `db.appCtl` in the Go code.
The argument vocabulary is the one exercised by `ovndbmanager_test.go`:
`cluster/sid NAME`, `cluster/status NAME`, `cluster/kick NAME SID`,
`cluster/change-election-timer NAME VALUE`, `exit`. -/
inductive Cmd where
  | querySid (dbName : String)
  | queryStatus (dbName : String)
  | kick (dbName : String) (sid : String)
  | changeTimer (dbName : String) (value : Nat)
  | exitCmd
  deriving DecidableEq, Repr

/-- The distinct error conditions of the db manager operations, one
constructor per error message observed in `ovndbmanager_test.go` /
described in the spec (section 7). -/
inductive DbError where
  /-- "unable to get db server ID for ..." -/
  | serverIDFailure (dbName : String)
  /-- "invalid db id found: ..." -/
  | invalidID (sid : String)
  /-- "unable to get cluster status for ..." -/
  | statusFailure (dbName : String)
  /-- "unable to parse Address for db ..." -/
  | parseAddressFailure (dbName : String)
  /-- "error while kicking old Raft member ..." -/
  | kickFailure (sid : String)
  /-- "failed to get current election timer ..." -/
  | electionTimerFailure (timerField : String)
  /-- "failed to change election timer for ..." -/
  | changeTimerFailure (dbName : String)
  /-- "invalid database name ..." -/
  | invalidDatabaseName (dbName : String)
  /-- "failed to back up the db to backupFile ..." -/
  | backupFailure (dbName : String)
  /-- "unable to restart the ovn db ..." -/
  | restartFailure (dbName : String)
  deriving DecidableEq, Repr

/-- One row of the `Servers:` table of a cluster-status report: a short raft
identity, a network address, and whether the row is marked `(self)`
(spec section 3, `PeerEntry`). -/
structure PeerEntry where
  sid : String
  addr : String
  self : Bool
  deriving DecidableEq, Repr

/-- The variable fields of one cluster-status report, mirroring exactly the
fill-ins of `status_template` in `ovndbmanager_test.go`: the `Address:` field
and the `Election timer:` field are kept raw (they are validated by the
operations), the `Role:` field, and the parsed `Servers:` table. -/
structure StatusText where
  address : String
  role : String
  electionTimer : String
  servers : List PeerEntry
  deriving DecidableEq, Repr

/-- The admin channel's behaviour for one reconcile cycle: the result each
command would return.  `Except.error` models a non-nil Go error. -/
structure Env where
  sidResult : Except String String
  statusResult : Except String StatusText
  kickResult : String → Except String Unit
  changeTimerResult : Nat → Except String Unit
  exitResult : Except String Unit

/-- The per-database fields of `dbProperties` used by the modelled
operations: logical name, on-disk alias, configured target election timer. -/
structure DbProperties where
  dbName : String
  dbAlias : String
  electionTimer : Nat
  deriving DecidableEq, Repr

/-- Is this command a `cluster/kick`? -/
def Cmd.isKick : Cmd → Bool
  | .kick _ _ => true
  | _ => false

/-- Is this command a `cluster/change-election-timer`? -/
def Cmd.isChangeTimer : Cmd → Bool
  | .changeTimer _ _ => true
  | _ => false

/-- Is this command an `exit` (restart request)? -/
def Cmd.isExit : Cmd → Bool
  | .exitCmd => true
  | _ => false

/-- Decimal value of a digit string (no sign, no spaces). -/
def digitsToNat (cs : List Char) : Nat :=
  cs.foldl (fun n c => n * 10 + (c.toNat - 48)) 0

/-- Modelled from the spec: the election-timer field "must be an integer;
non-numeric values are a parse failure" (section 4.1).  Returns the parsed
value, or `none` on a non-numeric field. -/
def parseTimer (s : String) : Option Nat :=
  if s.data ≠ [] ∧ s.data.all Char.isDigit then some (digitsToNat s.data)
  else none

/-- Split a character list on a separator character (the pieces, separators
dropped; like Go `strings.Split`). -/
def splitOnChar (sep : Char) : List Char → List (List Char)
  | [] => [[]]
  | c :: rest =>
    let r := splitOnChar sep rest
    if c == sep then [] :: r
    else
      match r with
      | [] => [[c]]
      | h :: t => (c :: h) :: t

/-- Characters allowed in the scheme of a network address (lowercase
letters, as in `ssl` / `tcp`). -/
def isSchemeChar (c : Char) : Bool := c.isLower

/-- Characters allowed in the host of a network address. -/
def isHostChar (c : Char) : Bool := c.isAlphanum || c == '.' || c == '-'

/-- Modelled from the spec: "Network addresses must conform to a
`scheme:host:port` shape; any other shape is a parse failure, not a silent
default" (section 4.1).  `ssl:10.1.1.185:9643` conforms;
`http://10.1.1.185:9643` does not (its middle piece holds slashes). -/
def addrOk (s : String) : Bool :=
  match splitOnChar ':' s.data with
  | [scheme, host, port] =>
    scheme ≠ [] && scheme.all isSchemeChar &&
    host ≠ [] && host.all isHostChar &&
    port ≠ [] && port.all Char.isDigit
  | _ => false

/-- Modelled from the spec: the bounded step of the election-timer tuner,
"next = current*2 if target > current*2, else next = target"
(section 4.4 step 4), "model it as a pure function (current, target) →
next-step" (section 9). -/
def nextTimerStep (current target : Nat) : Nat :=
  if target > current * 2 then current * 2 else target

/-- Modelled from the spec: `EnsureElectionTimeout` (section 4.4), the Go
function `ensureElectionTimeout`, absent from this source tree.
Step 1 queries and parses the status (failure: "unable to get cluster
status"); the election-timer field is parsed here with its own distinct
error ("failed to get current election timer", section 8) rather than
inside the generic status parser.  Step 2: if the role is not leader,
no-op.  Step 3: if the current timer equals the configured target, no-op.
Step 4/5: otherwise issue one `cluster/change-election-timer` command with
the bounded next step (failure: "failed to change election timer").
Returns the outcome and the trace of issued admin-channel commands. -/
def ensureElectionTimeout (db : DbProperties) (env : Env) :
    Except DbError Unit × List Cmd :=
  match env.statusResult with
  | .error _ => (.error (.statusFailure db.dbName), [.queryStatus db.dbName])
  | .ok st =>
    match parseTimer st.electionTimer with
    | none =>
      (.error (.electionTimerFailure st.electionTimer), [.queryStatus db.dbName])
    | some current =>
      if st.role ≠ "leader" then (.ok (), [.queryStatus db.dbName])
      else if current = db.electionTimer then (.ok (), [.queryStatus db.dbName])
      else
        let next := nextTimerStep current db.electionTimer
        match env.changeTimerResult next with
        | .error _ =>
          (.error (.changeTimerFailure db.dbName),
            [.queryStatus db.dbName, .changeTimer db.dbName next])
        | .ok () =>
          (.ok (), [.queryStatus db.dbName, .changeTimer db.dbName next])

/-- Kick a list of stale entries in order, aborting on the first kick
failure ("A failure to evict is reported as an error and the entry remains
for the next cycle", spec section 4.2 step 5).  Returns the outcome and the
kick commands issued. -/
def kickStale (dbName : String) (env : Env) :
    List PeerEntry → Except DbError Unit × List Cmd
  | [] => (.ok (), [])
  | p :: rest =>
    match env.kickResult p.sid with
    | .error _ => (.error (.kickFailure p.sid), [.kick dbName p.sid])
    | .ok () =>
      let r := kickStale dbName env rest
      (r.1, .kick dbName p.sid :: r.2)

/-- Is this peer entry a stale raft membership record for the local node:
not the self entry, at the local self address, with a short identity other
than the local short identity (spec section 4.2 step 4)? -/
def isStaleEntry (localAddr serverID : String) (p : PeerEntry) : Bool :=
  !p.self && p.addr == localAddr && p.sid != serverID

/-- Modelled from the spec: `EnsureLocalServerID` (section 4.2), the Go
function `ensureLocalRaftServerID`, absent from this source tree.
Step 1 queries `cluster/sid` (failure: "unable to get db server ID").
Step 2 validates the identity's length (the test rejects the 3-character
"87f"; a full identity has at least the 4-character short prefix).
Step 3 queries `cluster/status` (failure: "unable to get cluster status").
The local address must conform to the `scheme:host:port` shape (failure:
"unable to parse Address").  Step 4 classifies every other peer entry at
the local address with a differing short identity as stale; step 5 kicks
each stale entry, surfacing a kick failure as an error.
Returns the outcome and the trace of issued admin-channel commands. -/
def ensureLocalRaftServerID (db : DbProperties) (env : Env) :
    Except DbError Unit × List Cmd :=
  match env.sidResult with
  | .error _ => (.error (.serverIDFailure db.dbName), [.querySid db.dbName])
  | .ok sid =>
    if sid.length < 4 then (.error (.invalidID sid), [.querySid db.dbName])
    else
      let serverID := sid.take 4
      match env.statusResult with
      | .error _ =>
        (.error (.statusFailure db.dbName),
          [.querySid db.dbName, .queryStatus db.dbName])
      | .ok st =>
        if addrOk st.address then
          let stale := st.servers.filter (isStaleEntry st.address serverID)
          let r := kickStale db.dbName env stale
          (r.1, [.querySid db.dbName, .queryStatus db.dbName] ++ r.2)
        else
          (.error (.parseAddressFailure db.dbName),
            [.querySid db.dbName, .queryStatus db.dbName])

/-- The known-good member address set for a logical database name: the
north set for `OVN_Northbound`, the south set for `OVN_Southbound`, and
`none` (an invalid database name) otherwise (spec section 4.3 step 1). -/
def knownMembersFor (dbName : String) (knownNorth knownSouth : List String) :
    Option (List String) :=
  if dbName == "OVN_Northbound" then some knownNorth
  else if dbName == "OVN_Southbound" then some knownSouth
  else none

/-- Kick a list of unknown entries; evictions are independent, one failing
does not prevent attempting the others, and all failures are aggregated
(spec section 4.3 step 5).  Returns the aggregated errors and the kick
commands issued. -/
def kickUnknown (dbName : String) (env : Env) :
    List PeerEntry → List DbError × List Cmd
  | [] => ([], [])
  | p :: rest =>
    let r := kickUnknown dbName env rest
    match env.kickResult p.sid with
    | .error _ => (.kickFailure p.sid :: r.1, .kick dbName p.sid :: r.2)
    | .ok () => (r.1, .kick dbName p.sid :: r.2)

/-- Is this peer entry unknown: not the self entry and its address absent
from the known-good member address set (spec section 4.3 step 4; the self
entry is never evicted by this path, section 8)? -/
def isUnknownEntry (known : List String) (p : PeerEntry) : Bool :=
  !p.self && !(known.contains p.addr)

/-- Modelled from the spec: `EnsureClusterMembership` (section 4.3), the Go
function `ensureClusterRaftMembership`, absent from this source tree.
Step 1 validates the logical name against the two recognized instances,
failing with "invalid database name" before any admin-channel call.
Step 2 queries `cluster/status` (failure: "Unable to get cluster status").
Step 3 takes the known-good address set for the instance.  Step 4 kicks
every non-self entry whose address is absent from that set; entries with
addresses in the set are left untouched regardless of identity mismatch.
Step 5 aggregates the independent kick failures.  Returns the aggregated
errors (empty on success) and the trace of issued admin-channel commands. -/
def ensureClusterRaftMembership (db : DbProperties)
    (knownNorth knownSouth : List String) (env : Env) :
    List DbError × List Cmd :=
  match knownMembersFor db.dbName knownNorth knownSouth with
  | none => ([.invalidDatabaseName db.dbName], [])
  | some known =>
    match env.statusResult with
    | .error _ => ([.statusFailure db.dbName], [.queryStatus db.dbName])
    | .ok st =>
      let unknown := st.servers.filter (isUnknownEntry known)
      let r := kickUnknown db.dbName env unknown
      (r.1, .queryStatus db.dbName :: r.2)

/-- The deterministic backup file name produced for a database alias
("named deterministically from the alias", spec section 6; "alias plus a
recovery marker", section 4.5 step 2). -/
def backupFileName (dbAlias : String) : String :=
  dbAlias ++ ".backup"

/-- Modelled from the spec: `ResetDatabase` (section 4.5), the Go function
`resetRaftDB`, absent from this source tree.  The filesystem is embedded as
the list of present file names.  Step 1/2: the on-disk file named by the
alias is moved to the uniquely-named backup file; if the file is absent the
move fails and the operation aborts with "failed to back up the db" before
any admin-channel command, returning an empty backup name.  Step 3 requests
a process exit; on failure "unable to restart the ovn db" is reported while
the backup name is still returned.  Step 4 returns the backup name.
Returns (backup file name, outcome, trace of issued commands). -/
def resetRaftDB (db : DbProperties) (files : List String) (env : Env) :
    String × Except DbError Unit × List Cmd :=
  if files.contains db.dbAlias then
    match env.exitResult with
    | .error _ =>
      (backupFileName db.dbAlias, .error (.restartFailure db.dbName), [.exitCmd])
    | .ok () => (backupFileName db.dbAlias, .ok (), [.exitCmd])
  else ("", .error (.backupFailure db.dbName), [])

end OvnDbManager

namespace IpRuleManager

/-!
Embedding of `pkg/node/iprulemanager/ip_rule_manager.go`.  A netlink rule is
abstracted to the fields the manager's own logic reads: its priority, its
address family, and its `String()` representation.  The netlink syscalls of
`reconcile` (`RuleList`, `RuleDel`, `RuleAdd`) are embedded as an
environment giving the rules found on the host and the success of each
deletion/addition.
-/

/-- A netlink rule, restricted to the fields `ip_rule_manager.go` reads:
`Priority`, `Family`, and the `String()` representation. -/
structure NetlinkRule where
  priority : Int
  family : Int
  str : String
  deriving DecidableEq, Repr

/-- `areNetlinkRulesEqual`: two rules are equal when they have the same IP
address family and their string representations are equal. -/
def areNetlinkRulesEqual (r1 r2 : NetlinkRule) : Bool :=
  r1.family == r2.family && r1.str == r2.str

/-- The `ipRule` wrapper: a managed rule plus its pending-deletion mark. -/
structure IpRule where
  rule : NetlinkRule
  delete : Bool
  deriving DecidableEq, Repr

/-- The manager state (`Controller`): the managed rule list and the owned
priorities.  The mutex and the address-family flags govern I/O only. -/
structure Controller where
  rules : List IpRule
  ownPriorities : List Int
  deriving DecidableEq, Repr

/-- The netlink side of one `reconcile` call: the rules found on the host
(`RuleList`) and whether each `RuleDel` / `RuleAdd` succeeds. -/
structure NetlinkEnv where
  rulesFound : List NetlinkRule
  delOk : NetlinkRule → Bool
  addOk : NetlinkRule → Bool

/-- `isNetlinkRuleInSlice`: a candidate is in a slice when some rule of the
slice shares its priority and is equal to it. -/
def isNetlinkRuleInSlice (rules : List NetlinkRule) (candidate : NetlinkRule) :
    Bool :=
  rules.any (fun r => r.priority == candidate.priority &&
    areNetlinkRulesEqual r candidate)

/-- `Controller.add`: appends the rule to the in-memory list and returns
`true`, or returns `false` without change when an equal rule is already
managed. -/
def Controller.add (rm : Controller) (rule : NetlinkRule) :
    Bool × Controller :=
  if rm.rules.any (fun existingRule => areNetlinkRulesEqual existingRule.rule rule)
  then (false, rm)
  else (true, { rm with rules := rm.rules ++ [⟨rule, false⟩] })

/-- `Controller.reconcile`: a delete-marked rule is kept only when it is
found on the host and its deletion fails; other managed rules are kept,
being re-added to the host when absent.  Rules found at an owned priority
that no managed rule equals are deleted from the host (no state change).
Returns the new state and whether every netlink operation succeeded. -/
def Controller.reconcile (rm : Controller) (env : NetlinkEnv) :
    Controller × Bool :=
  let rulesToKeep := rm.rules.filter (fun r =>
    if r.delete then
      isNetlinkRuleInSlice env.rulesFound r.rule && !(env.delOk r.rule)
    else true)
  let delErr := rm.rules.any (fun r =>
    r.delete && isNetlinkRuleInSlice env.rulesFound r.rule && !(env.delOk r.rule))
  let addErr := rm.rules.any (fun r =>
    !r.delete && !(isNetlinkRuleInSlice env.rulesFound r.rule) &&
      !(env.addOk r.rule))
  let staleErr := rm.ownPriorities.any (fun priority =>
    env.rulesFound.any (fun ruleFound =>
      ruleFound.priority == priority &&
      !(rm.rules.any (fun ruleWanted =>
          ruleWanted.rule.priority == priority &&
          areNetlinkRulesEqual ruleWanted.rule ruleFound)) &&
      !(env.delOk ruleFound)))
  ({ rm with rules := rulesToKeep }, !(delErr || addErr || staleErr))

/-- `Controller.Add`: when `add` reports the rule already managed, return
`nil` at once; otherwise trigger `reconcile`.  Returns the new state,
whether reconciliation was triggered, and whether an error was returned
(`true` meaning a non-nil error). -/
def Controller.Add (rm : Controller) (env : NetlinkEnv) (rule : NetlinkRule) :
    Controller × Bool × Bool :=
  match rm.add rule with
  | (false, rm1) => (rm1, false, false)
  | (true, rm1) =>
    let r := rm1.reconcile env
    (r.1, true, !r.2)

/-- No two managed entries are equal in the sense of
`areNetlinkRulesEqual`. -/
def noDupRules (rules : List IpRule) : Prop :=
  rules.Pairwise (fun a b => areNetlinkRulesEqual a.rule b.rule = false)

end IpRuleManager

namespace IpsecMonitor

/-!
Embedding of the probe loop of `MonitorTunnels` (`pkg/ipsec`, shipped here
alongside `ip_rule_manager.go`): the two `int32` counters and how one probe
iteration updates them.
-/

/-- Wrap an integer to Go `int32` (two's complement). -/
def int32wrap (n : Int) : Int := (n + 2 ^ 31) % 2 ^ 32 - 2 ^ 31

/-- The two counters of the `MonitorTunnels` loop. -/
structure ProbeCounters where
  consecutiveFailures : Int
  consecutiveSuccess : Int
  deriving DecidableEq, Repr

/-- One iteration of the `MonitorTunnels` loop, restricted to the counter
updates: a failed probe (`CheckTunnels` returned an error) increments
`consecutiveFailures` and zeroes `consecutiveSuccess`; a successful probe
increments `consecutiveSuccess` and zeroes `consecutiveFailures`. -/
def monitorTunnelsStep (c : ProbeCounters) (probeFailed : Bool) :
    ProbeCounters :=
  if probeFailed then
    { consecutiveFailures := int32wrap (c.consecutiveFailures + 1),
      consecutiveSuccess := 0 }
  else
    { consecutiveFailures := 0,
      consecutiveSuccess := int32wrap (c.consecutiveSuccess + 1) }

/-- The counters reached from the loop's start (both zero) after a given
sequence of probe outcomes. -/
def monitorTunnelsRun (outcomes : List Bool) : ProbeCounters :=
  outcomes.foldl monitorTunnelsStep ⟨0, 0⟩

end IpsecMonitor

namespace OvnDbManager

/-!
Concrete fixtures, taken verbatim from `ovndbmanager_test.go`: the local
server address, the full server identity returned by `cluster/sid`, and the
three `Servers:` table variants (healthy, with a stale member, with two
unknown members), together with the known-member address list.
-/

/-- `serverAddress` of the test file. -/
def serverAddress : String := "ssl:10.1.1.185:9643"

/-- The full server identity used by the tests. -/
def fullSid : String := "87f0d686-8a8d-4585-9513-45efac449101"

/-- The healthy `servers` table of the test file. -/
def serversFixture : List PeerEntry :=
  [⟨"87f0", "ssl:10.1.1.185:9643", true⟩,
   ⟨"bbf6", "ssl:10.1.1.218:9643", false⟩,
   ⟨"ad31", "ssl:10.1.1.211:9643", false⟩]

/-- The `staleServers` table of the test file: the entry `3936` shares the
local address with the self entry `87f0`. -/
def staleServersFixture : List PeerEntry :=
  [⟨"87f0", "ssl:10.1.1.185:9643", true⟩,
   ⟨"3936", "ssl:10.1.1.185:9643", false⟩,
   ⟨"bbf6", "ssl:10.1.1.218:9643", false⟩,
   ⟨"ad31", "ssl:10.1.1.211:9643", false⟩]

/-- The `unknownServers` table of the test file: `c10c` and `fc43` are at
addresses outside the known-member list. -/
def unknownServersFixture : List PeerEntry :=
  [⟨"87f0", "ssl:10.1.1.185:9643", true⟩,
   ⟨"c10c", "ssl:10.1.1.219:9643", false⟩,
   ⟨"fc43", "ssl:10.1.1.220:9643", false⟩,
   ⟨"bbf6", "ssl:10.1.1.218:9643", false⟩,
   ⟨"ad31", "ssl:10.1.1.211:9643", false⟩]

/-- The `knownMembers` address list of the test file. -/
def knownMembersFixture : List String :=
  ["ssl:10.1.1.185:9643", "ssl:10.1.1.218:9643", "ssl:10.1.1.211:9643"]

/-- An admin channel on which every call succeeds, answering the status
query with the given report. -/
def allOkEnv (st : StatusText) : Env where
  sidResult := .ok fullSid
  statusResult := .ok st
  kickResult := fun _ => .ok ()
  changeTimerResult := fun _ => .ok ()
  exitResult := .ok ()

/-- A status report built as the test file's `status_template` does, with
the healthy `Servers:` table unless another is given. -/
def mkStatus (address role timer : String)
    (servers : List PeerEntry := serversFixture) : StatusText :=
  ⟨address, role, timer, servers⟩

end OvnDbManager



namespace OvnDbManager

/-- C1: for every invocation of `ensureElectionTimeout` where the parsed
role is leader and the current election timer differs from the configured
target, exactly one change-election-timer command is issued, and its value
is `current*2` when `target > current*2`, else the target itself. -/
theorem ensureElectionTimeout_leader_mismatch_one_change
    (db : DbProperties) (env : Env) (st : StatusText) (current : Nat)
    (hst : env.statusResult = .ok st)
    (ht : parseTimer st.electionTimer = some current)
    (hrole : st.role = "leader")
    (hne : current ≠ db.electionTimer) :
    (ensureElectionTimeout db env).2.filter Cmd.isChangeTimer =
      [Cmd.changeTimer db.dbName
        (if db.electionTimer > current * 2 then current * 2
         else db.electionTimer)] := by
  show (ensureElectionTimeout db env).2.filter Cmd.isChangeTimer =
    [Cmd.changeTimer db.dbName (nextTimerStep current db.electionTimer)]
  cases h : env.changeTimerResult (nextTimerStep current db.electionTimer) <;>
    simp [ensureElectionTimeout, hst, ht, hrole, hne, h, Cmd.isChangeTimer]

/-- Witness for C1 at the two scenarios of `TestEnsureElectionTimeout`:
current 1500 with target 2000 issues one change command with value 2000;
current 1500 with target 5000 issues one change command with value 3000. -/
theorem ensureElectionTimeout_leader_mismatch_one_change_witness :
    (ensureElectionTimeout ⟨"OVN_Northbound", "ovnnb", 2000⟩
        (allOkEnv (mkStatus serverAddress "leader" "1500"))).2.filter
        Cmd.isChangeTimer = [Cmd.changeTimer "OVN_Northbound" 2000]
    ∧ (ensureElectionTimeout ⟨"OVN_Northbound", "ovnnb", 5000⟩
        (allOkEnv (mkStatus serverAddress "leader" "1500"))).2.filter
        Cmd.isChangeTimer = [Cmd.changeTimer "OVN_Northbound" 3000] := by
  constructor
  · have h := ensureElectionTimeout_leader_mismatch_one_change
      ⟨"OVN_Northbound", "ovnnb", 2000⟩
      (allOkEnv (mkStatus serverAddress "leader" "1500"))
      (mkStatus serverAddress "leader" "1500") 1500
      rfl (by decide) rfl (by decide)
    simpa using h
  · have h := ensureElectionTimeout_leader_mismatch_one_change
      ⟨"OVN_Northbound", "ovnnb", 5000⟩
      (allOkEnv (mkStatus serverAddress "leader" "1500"))
      (mkStatus serverAddress "leader" "1500") 1500
      rfl (by decide) rfl (by decide)
    simpa using h

/-- The trace of `kickStale` on a single stale entry is exactly one kick
command targeting it, whether or not the kick succeeds. -/
theorem kickStale_singleton (dbName : String) (env : Env) (p : PeerEntry) :
    (kickStale dbName env [p]).2 = [Cmd.kick dbName p.sid] := by
  cases h : env.kickResult p.sid <;> simp [kickStale, h]

/-- C2: whenever the cluster status holds the (unique) non-self peer entry
whose address equals the local self address but whose short identity
differs from the local short identity, `ensureLocalRaftServerID` issues
exactly one kick command, targeting that peer's short identity; when no
such stale entry exists the operation succeeds without issuing any kick. -/
theorem ensureLocalRaftServerID_stale_eviction
    (db : DbProperties) (env : Env) (sid : String) (st : StatusText)
    (hsid : env.sidResult = .ok sid) (hlen : ¬ sid.length < 4)
    (hst : env.statusResult = .ok st) (haddr : addrOk st.address = true) :
    (∀ p, st.servers.filter (isStaleEntry st.address (sid.take 4)) = [p] →
      (ensureLocalRaftServerID db env).2.filter Cmd.isKick =
        [Cmd.kick db.dbName p.sid])
    ∧ (st.servers.filter (isStaleEntry st.address (sid.take 4)) = [] →
      (ensureLocalRaftServerID db env).2.filter Cmd.isKick = []
      ∧ (ensureLocalRaftServerID db env).1 = .ok ()) := by
  constructor
  · intro p hp
    simp [ensureLocalRaftServerID, hsid, hlen, hst, haddr, hp,
      kickStale_singleton, Cmd.isKick]
  · intro hp
    simp [ensureLocalRaftServerID, hsid, hlen, hst, haddr, hp, kickStale,
      Cmd.isKick]

/-- Witness for C2 at the fixtures of `TestEnsureLocalRaftServerID`: on the
`staleServers` table exactly the stale member `3936` is kicked, and on the
healthy `servers` table no kick is issued and the call succeeds. -/
theorem ensureLocalRaftServerID_stale_eviction_witness :
    (ensureLocalRaftServerID ⟨"OVN_Northbound", "ovnnb", 1000⟩
        (allOkEnv (mkStatus serverAddress "leader" "1000"
          staleServersFixture))).2.filter Cmd.isKick =
      [Cmd.kick "OVN_Northbound" "3936"]
    ∧ (ensureLocalRaftServerID ⟨"OVN_Northbound", "ovnnb", 1000⟩
        (allOkEnv (mkStatus serverAddress "leader" "1000"))).2.filter
        Cmd.isKick = []
    ∧ (ensureLocalRaftServerID ⟨"OVN_Northbound", "ovnnb", 1000⟩
        (allOkEnv (mkStatus serverAddress "leader" "1000"))).1 = .ok () := by
  refine ⟨?_, ?_, ?_⟩
  · exact (ensureLocalRaftServerID_stale_eviction
      ⟨"OVN_Northbound", "ovnnb", 1000⟩
      (allOkEnv (mkStatus serverAddress "leader" "1000" staleServersFixture))
      fullSid (mkStatus serverAddress "leader" "1000" staleServersFixture)
      rfl (by decide) rfl (by decide)).1
      ⟨"3936", "ssl:10.1.1.185:9643", false⟩ (by decide)
  · exact ((ensureLocalRaftServerID_stale_eviction
      ⟨"OVN_Northbound", "ovnnb", 1000⟩
      (allOkEnv (mkStatus serverAddress "leader" "1000"))
      fullSid (mkStatus serverAddress "leader" "1000")
      rfl (by decide) rfl (by decide)).2 (by decide)).1
  · exact ((ensureLocalRaftServerID_stale_eviction
      ⟨"OVN_Northbound", "ovnnb", 1000⟩
      (allOkEnv (mkStatus serverAddress "leader" "1000"))
      fullSid (mkStatus serverAddress "leader" "1000")
      rfl (by decide) rfl (by decide)).2 (by decide)).2

/-- C5: when the local server's address field does not conform to the
`scheme:host:port` shape, `ensureLocalRaftServerID` fails with the
parse-Address error and its trace holds only the two queries — no kick
command and no partially-populated result. -/
theorem ensureLocalRaftServerID_bad_address
    (db : DbProperties) (env : Env) (sid : String) (st : StatusText)
    (hsid : env.sidResult = .ok sid) (hlen : ¬ sid.length < 4)
    (hst : env.statusResult = .ok st) (haddr : addrOk st.address = false) :
    ensureLocalRaftServerID db env =
      (.error (.parseAddressFailure db.dbName),
       [.querySid db.dbName, .queryStatus db.dbName]) := by
  simp [ensureLocalRaftServerID, hsid, hlen, hst, haddr]

/-- Witness for C5 at the malformed address of
`TestEnsureLocalRaftServerID`: `http://10.1.1.185:9643` (a
`scheme://host:port` shape) makes the call fail with the parse-Address
error and issue no kick. -/
theorem ensureLocalRaftServerID_bad_address_witness :
    ensureLocalRaftServerID ⟨"OVN_Northbound", "ovnnb", 1000⟩
        (allOkEnv (mkStatus "http://10.1.1.185:9643" "leader" "1000")) =
      (.error (.parseAddressFailure "OVN_Northbound"),
       [.querySid "OVN_Northbound", .queryStatus "OVN_Northbound"]) :=
  ensureLocalRaftServerID_bad_address ⟨"OVN_Northbound", "ovnnb", 1000⟩
    (allOkEnv (mkStatus "http://10.1.1.185:9643" "leader" "1000"))
    fullSid (mkStatus "http://10.1.1.185:9643" "leader" "1000")
    rfl (by decide) rfl (by decide)

/-- C6: `ensureElectionTimeout` issues no change-election-timer command when
the parsed local role is not leader, regardless of the current timer's
value, and none when the role is leader but the current timer already
equals the configured target; in both cases the operation succeeds (the
trace holds nothing but the status query). -/
theorem ensureElectionTimeout_noop
    (db : DbProperties) (env : Env) (st : StatusText) (current : Nat)
    (hst : env.statusResult = .ok st)
    (ht : parseTimer st.electionTimer = some current) :
    (st.role ≠ "leader" →
      ensureElectionTimeout db env = (.ok (), [.queryStatus db.dbName]))
    ∧ (st.role = "leader" → current = db.electionTimer →
      ensureElectionTimeout db env = (.ok (), [.queryStatus db.dbName])) := by
  constructor
  · intro hr
    simp [ensureElectionTimeout, hst, ht, hr]
  · intro hr he
    simp [ensureElectionTimeout, hst, ht, hr, he]

/-- Witness for C6 at the two no-op scenarios of `TestEnsureElectionTimeout`:
a follower with current 10000 and target 1000, and a leader with current
1000 equal to the target 1000. -/
theorem ensureElectionTimeout_noop_witness :
    ensureElectionTimeout ⟨"OVN_Northbound", "ovnnb", 1000⟩
        (allOkEnv (mkStatus serverAddress "follower" "10000")) =
      (.ok (), [.queryStatus "OVN_Northbound"])
    ∧ ensureElectionTimeout ⟨"OVN_Northbound", "ovnnb", 1000⟩
        (allOkEnv (mkStatus serverAddress "leader" "1000")) =
      (.ok (), [.queryStatus "OVN_Northbound"]) := by
  constructor
  · exact (ensureElectionTimeout_noop ⟨"OVN_Northbound", "ovnnb", 1000⟩
      (allOkEnv (mkStatus serverAddress "follower" "10000"))
      (mkStatus serverAddress "follower" "10000") 10000
      rfl (by decide)).1 (by decide)
  · exact (ensureElectionTimeout_noop ⟨"OVN_Northbound", "ovnnb", 1000⟩
      (allOkEnv (mkStatus serverAddress "leader" "1000"))
      (mkStatus serverAddress "leader" "1000") 1000
      rfl (by decide)).2 rfl (by decide)

/-- The trace of `kickUnknown` is exactly one kick command per entry, in
order, whether or not the individual kicks succeed. -/
theorem kickUnknown_trace (dbName : String) (env : Env) (l : List PeerEntry) :
    (kickUnknown dbName env l).2 = l.map (fun p => Cmd.kick dbName p.sid) := by
  induction l with
  | nil => simp [kickUnknown]
  | cons p rest ih =>
    cases h : env.kickResult p.sid <;> simp [kickUnknown, h, ih]

/-- C3: `ensureClusterRaftMembership` issues one kick command for exactly
those peer entries whose address is absent from the known-good member
address set — never for an entry whose address is in the set (identity
mismatch notwithstanding, since only the address is examined), and never
for the self entry. -/
theorem ensureClusterRaftMembership_kicks_unknown
    (db : DbProperties) (knownNorth knownSouth known : List String)
    (env : Env) (st : StatusText)
    (hk : knownMembersFor db.dbName knownNorth knownSouth = some known)
    (hst : env.statusResult = .ok st) :
    (ensureClusterRaftMembership db knownNorth knownSouth env).2.filter
        Cmd.isKick =
      (st.servers.filter (isUnknownEntry known)).map
        (fun p => Cmd.kick db.dbName p.sid) := by
  simp only [ensureClusterRaftMembership, hk, hst]
  rw [List.filter_cons_of_neg (by simp [Cmd.isKick]), kickUnknown_trace]
  exact List.filter_eq_self.mpr (by
    intro c hc
    obtain ⟨p, _, rfl⟩ := List.mem_map.mp hc
    rfl)

/-- Witness for C3 at the fixtures of `TestEnsureClusterRaftMembership`: on
the `unknownServers` table with the `knownMembers` address set, exactly the
unknown members `c10c` and `fc43` are kicked. -/
theorem ensureClusterRaftMembership_kicks_unknown_witness :
    (ensureClusterRaftMembership ⟨"OVN_Northbound", "ovnnb", 1000⟩
        knownMembersFixture knownMembersFixture
        (allOkEnv (mkStatus serverAddress "leader" "1000"
          unknownServersFixture))).2.filter Cmd.isKick =
      [Cmd.kick "OVN_Northbound" "c10c", Cmd.kick "OVN_Northbound" "fc43"] := by
  have h := ensureClusterRaftMembership_kicks_unknown
    ⟨"OVN_Northbound", "ovnnb", 1000⟩ knownMembersFixture knownMembersFixture
    knownMembersFixture
    (allOkEnv (mkStatus serverAddress "leader" "1000" unknownServersFixture))
    (mkStatus serverAddress "leader" "1000" unknownServersFixture)
    (by decide) rfl
  rw [h]
  decide

/-- C8: `ensureClusterRaftMembership` on a logical database name that is
neither `OVN_Northbound` nor `OVN_Southbound` fails immediately with the
invalid-database-name error and an empty trace — no admin-channel call of
any kind. -/
theorem ensureClusterRaftMembership_invalid_name
    (db : DbProperties) (knownNorth knownSouth : List String) (env : Env)
    (h1 : db.dbName ≠ "OVN_Northbound") (h2 : db.dbName ≠ "OVN_Southbound") :
    ensureClusterRaftMembership db knownNorth knownSouth env =
      ([.invalidDatabaseName db.dbName], []) := by
  simp [ensureClusterRaftMembership, knownMembersFor, h1, h2]

/-- Witness for C8 at the misspelt name of
`TestEnsureClusterRaftMembership`: `OVN_Northboundd` is rejected with an
empty trace. -/
theorem ensureClusterRaftMembership_invalid_name_witness :
    ensureClusterRaftMembership ⟨"OVN_Northboundd", "ovnnb", 1000⟩
        knownMembersFixture knownMembersFixture
        (allOkEnv (mkStatus serverAddress "leader" "1000")) =
      ([.invalidDatabaseName "OVN_Northboundd"], []) :=
  ensureClusterRaftMembership_invalid_name
    ⟨"OVN_Northboundd", "ovnnb", 1000⟩ knownMembersFixture
    knownMembersFixture (allOkEnv (mkStatus serverAddress "leader" "1000"))
    (by decide) (by decide)

/-- C4: `resetRaftDB` on a missing on-disk file fails with the back-up
error before issuing any command (empty trace, empty backup name); on a
present file it returns the one (non-empty) backup file name and issues
exactly one exit command, reporting the restart error — with the backup
name still returned — exactly when the exit request fails. -/
theorem resetRaftDB_backup_and_restart
    (db : DbProperties) (files : List String) (env : Env) :
    (files.contains db.dbAlias = false →
      resetRaftDB db files env =
        ("", .error (.backupFailure db.dbName), []))
    ∧ (files.contains db.dbAlias = true →
      (resetRaftDB db files env).1 = backupFileName db.dbAlias
      ∧ (resetRaftDB db files env).1 ≠ ""
      ∧ (resetRaftDB db files env).2.2 = [Cmd.exitCmd]
      ∧ (∀ e, env.exitResult = .error e →
          (resetRaftDB db files env).2.1 =
            .error (.restartFailure db.dbName))
      ∧ (env.exitResult = .ok () →
          (resetRaftDB db files env).2.1 = .ok ())) := by
  have hname : backupFileName db.dbAlias ≠ "" := by
    intro hcontra
    have hlen : ("" : String).length = (backupFileName db.dbAlias).length := by
      rw [hcontra]
    rw [backupFileName, String.length_append] at hlen
    have h0 : ("" : String).length = 0 := rfl
    have h7 : (".backup" : String).length = 7 := rfl
    omega
  constructor
  · intro h
    have hmem : db.dbAlias ∉ files := by simpa using h
    simp [resetRaftDB, hmem]
  · intro h
    have hmem : db.dbAlias ∈ files := by simpa using h
    refine ⟨?_, ?_, ?_, ?_, ?_⟩
    · cases he : env.exitResult <;> simp [resetRaftDB, hmem, he]
    · cases he : env.exitResult <;> simp [resetRaftDB, hmem, he, hname]
    · cases he : env.exitResult <;> simp [resetRaftDB, hmem, he]
    · intro e he
      simp [resetRaftDB, hmem, he]
    · intro he
      simp [resetRaftDB, hmem, he]

/-- Witness for C4 at the scenarios of `TestResetRaftDB`: a missing `ovnnb`
file fails before any command; a present file yields the backup name and
one exit command in both the failed-restart and successful cases. -/
theorem resetRaftDB_backup_and_restart_witness :
    resetRaftDB ⟨"OVN_Northbound", "ovnnb", 1000⟩ []
        (allOkEnv (mkStatus serverAddress "leader" "1000")) =
      ("", .error (.backupFailure "OVN_Northbound"), [])
    ∧ (resetRaftDB ⟨"OVN_Northbound", "ovnnb", 1000⟩ ["ovnnb"]
        (allOkEnv (mkStatus serverAddress "leader" "1000"))).1 =
      backupFileName "ovnnb"
    ∧ (resetRaftDB ⟨"OVN_Northbound", "ovnnb", 1000⟩ ["ovnnb"]
        (allOkEnv (mkStatus serverAddress "leader" "1000"))).2.2 =
      [Cmd.exitCmd]
    ∧ (resetRaftDB ⟨"OVN_Northbound", "ovnnb", 1000⟩ ["ovnnb"]
        { allOkEnv (mkStatus serverAddress "leader" "1000") with
          exitResult := .error "failed restart" }).2.1 =
      .error (.restartFailure "OVN_Northbound") := by
  refine ⟨?_, ?_, ?_, ?_⟩
  · exact (resetRaftDB_backup_and_restart ⟨"OVN_Northbound", "ovnnb", 1000⟩
      [] (allOkEnv (mkStatus serverAddress "leader" "1000"))).1 (by decide)
  · exact ((resetRaftDB_backup_and_restart ⟨"OVN_Northbound", "ovnnb", 1000⟩
      ["ovnnb"]
      (allOkEnv (mkStatus serverAddress "leader" "1000"))).2 (by decide)).1
  · exact ((resetRaftDB_backup_and_restart ⟨"OVN_Northbound", "ovnnb", 1000⟩
      ["ovnnb"]
      (allOkEnv (mkStatus serverAddress "leader" "1000"))).2
      (by decide)).2.2.1
  · exact (((resetRaftDB_backup_and_restart ⟨"OVN_Northbound", "ovnnb", 1000⟩
      ["ovnnb"]
      { allOkEnv (mkStatus serverAddress "leader" "1000") with
        exitResult := .error "failed restart" }).2
      (by decide)).2.2.2.1) "failed restart" rfl

/-- C7: if the election-timer field of the status text is non-numeric,
`ensureElectionTimeout` fails with the distinct current-election-timer
error (not the status-query or status-parse error) and issues no
change-election-timer command (the trace holds only the status query). -/
theorem ensureElectionTimeout_unparsable_timer
    (db : DbProperties) (env : Env) (st : StatusText)
    (hst : env.statusResult = .ok st)
    (ht : parseTimer st.electionTimer = none) :
    ensureElectionTimeout db env =
      (.error (.electionTimerFailure st.electionTimer),
       [.queryStatus db.dbName]) := by
  simp [ensureElectionTimeout, hst, ht]

/-- Witness for C7 at the unparsable-timer scenario of
`TestEnsureElectionTimeout`: the timer field `a` on a leader. -/
theorem ensureElectionTimeout_unparsable_timer_witness :
    ensureElectionTimeout ⟨"OVN_Northbound", "ovnnb", 1000⟩
        (allOkEnv (mkStatus serverAddress "leader" "a")) =
      (.error (.electionTimerFailure "a"), [.queryStatus "OVN_Northbound"]) :=
  ensureElectionTimeout_unparsable_timer ⟨"OVN_Northbound", "ovnnb", 1000⟩
    (allOkEnv (mkStatus serverAddress "leader" "a"))
    (mkStatus serverAddress "leader" "a") rfl (by decide)

end OvnDbManager

namespace IpRuleManagerProofs
open IpRuleManager

/-- C9: `Controller.Add` of the IP-rule manager is idempotent — when a rule
equal (same address family and string representation) to the argument is
already in the managed list, `Add` returns nil without changing the state
and without triggering reconciliation — and consequently `Add` preserves
the invariant that the managed list never contains two equal rules. -/
theorem Controller_Add_idempotent (rm : Controller) (env : NetlinkEnv)
    (rule : NetlinkRule) :
    (rm.rules.any
        (fun existingRule => areNetlinkRulesEqual existingRule.rule rule) =
        true →
      rm.Add env rule = (rm, false, false))
    ∧ (noDupRules rm.rules → noDupRules (rm.Add env rule).1.rules) := by
  constructor
  · intro h
    simp [Controller.Add, Controller.add, h]
  · intro hnd
    by_cases h : rm.rules.any
        (fun existingRule => areNetlinkRulesEqual existingRule.rule rule) =
        true
    · simpa [Controller.Add, Controller.add, h] using hnd
    · have hall : ∀ er ∈ rm.rules, areNetlinkRulesEqual er.rule rule = false := by
        intro er her
        have h' := Bool.not_eq_true _ |>.mp h
        exact Bool.not_eq_true _ |>.mp (List.any_eq_false.mp h' er her)
      have happ : noDupRules (rm.rules ++ [⟨rule, false⟩]) := by
        unfold noDupRules
        rw [List.pairwise_append]
        refine ⟨hnd, List.pairwise_singleton _ _, ?_⟩
        intro a ha b hb
        rw [List.mem_singleton] at hb
        subst hb
        exact hall a ha
      simp only [Controller.Add, Controller.add, h, Bool.false_eq_true,
        if_neg, ite_false, Controller.reconcile]
      exact List.Pairwise.sublist (List.filter_sublist _) happ

/-- Witness for C9: a second `Add` of the one managed rule leaves the
one-rule manager untouched, reports no error and no reconciliation, and
keeps the list duplicate-free. -/
theorem Controller_Add_idempotent_witness :
    Controller.Add ⟨[⟨⟨100, 2, "from all lookup main"⟩, false⟩], []⟩
        ⟨[], fun _ => true, fun _ => true⟩ ⟨100, 2, "from all lookup main"⟩ =
      (⟨[⟨⟨100, 2, "from all lookup main"⟩, false⟩], []⟩, false, false)
    ∧ noDupRules
        (Controller.Add ⟨[⟨⟨100, 2, "from all lookup main"⟩, false⟩], []⟩
          ⟨[], fun _ => true, fun _ => true⟩
          ⟨100, 2, "from all lookup main"⟩).1.rules := by
  constructor
  · exact (Controller_Add_idempotent
      ⟨[⟨⟨100, 2, "from all lookup main"⟩, false⟩], []⟩
      ⟨[], fun _ => true, fun _ => true⟩
      ⟨100, 2, "from all lookup main"⟩).1 (by decide)
  · exact (Controller_Add_idempotent
      ⟨[⟨⟨100, 2, "from all lookup main"⟩, false⟩], []⟩
      ⟨[], fun _ => true, fun _ => true⟩
      ⟨100, 2, "from all lookup main"⟩).2
      (List.pairwise_singleton _ _)

end IpRuleManagerProofs

namespace IpsecMonitor

/-- After one probe iteration the counter the branch does not increment is
exactly zero. -/
theorem monitorTunnelsStep_zero (c : ProbeCounters) (probeFailed : Bool) :
    (monitorTunnelsStep c probeFailed).consecutiveFailures = 0 ∨
    (monitorTunnelsStep c probeFailed).consecutiveSuccess = 0 := by
  cases probeFailed <;> simp [monitorTunnelsStep]

/-- From a state with one counter zero, any further probes keep one counter
zero. -/
theorem monitorTunnelsFold_zero (outcomes : List Bool) (c : ProbeCounters)
    (h : c.consecutiveFailures = 0 ∨ c.consecutiveSuccess = 0) :
    (outcomes.foldl monitorTunnelsStep c).consecutiveFailures = 0 ∨
    (outcomes.foldl monitorTunnelsStep c).consecutiveSuccess = 0 := by
  induction outcomes generalizing c with
  | nil => exact h
  | cons b rest ih => exact ih _ (monitorTunnelsStep_zero _ b)

end IpsecMonitor

namespace IpsecMonitorProofs
open IpsecMonitor

/-- C10: after every probe iteration of the `MonitorTunnels` loop at least
one of `consecutiveFailures` and `consecutiveSuccess` is zero — a failed
probe zeroes the success counter while incrementing the failure counter
and a successful probe does the opposite — so the two counters are never
simultaneously positive, along any run from the loop's start included. -/
theorem monitorTunnels_counter_invariant (c : ProbeCounters)
    (probeFailed : Bool) :
    ((monitorTunnelsStep c probeFailed).consecutiveFailures = 0 ∨
      (monitorTunnelsStep c probeFailed).consecutiveSuccess = 0)
    ∧ ¬(0 < (monitorTunnelsStep c probeFailed).consecutiveFailures ∧
        0 < (monitorTunnelsStep c probeFailed).consecutiveSuccess)
    ∧ monitorTunnelsStep c true =
        ⟨int32wrap (c.consecutiveFailures + 1), 0⟩
    ∧ monitorTunnelsStep c false =
        ⟨0, int32wrap (c.consecutiveSuccess + 1)⟩
    ∧ ∀ outcomes : List Bool,
        (monitorTunnelsRun outcomes).consecutiveFailures = 0 ∨
        (monitorTunnelsRun outcomes).consecutiveSuccess = 0 := by
  refine ⟨monitorTunnelsStep_zero c probeFailed, ?_, rfl, rfl, ?_⟩
  · rcases monitorTunnelsStep_zero c probeFailed with h | h <;>
      rintro ⟨h1, h2⟩ <;> omega
  · intro outcomes
    exact monitorTunnelsFold_zero outcomes ⟨0, 0⟩ (Or.inl rfl)

end IpsecMonitorProofs

